import Mathlib

/-!
Verification of the MP3-to-MIDI percussion generator core
(`app/core.py`): loop-window selection, onset-voice classification,
tick quantization and monotonic event encoding.

Python floating-point values are modelled as exact rationals (ℚ).
Library primitives (demucs, scipy filtering, librosa beat tracking,
onset strength, onset detection, STFT, spectral centroid) are treated
as external oracles, as the design document prescribes; everything the
repository itself computes is embedded definitionally from the source.
-/

namespace MidiGen

/-- Python `int()` applied to a numeric value: truncation toward zero.
Embeds the calls `int(...)` in `app/core.py`. -/
def pyInt (x : ℚ) : ℤ := if 0 ≤ x then ⌊x⌋ else ⌈x⌉

/-- Python 3 `round()` to an integer: round half to even (banker's
rounding). Embeds the calls `round(...)` in `app/core.py`. -/
def pyRound (x : ℚ) : ℤ :=
  if x - ⌊x⌋ < 1/2 then ⌊x⌋
  else if (1:ℚ)/2 < x - ⌊x⌋ then ⌊x⌋ + 1
  else if Even ⌊x⌋ then ⌊x⌋ else ⌊x⌋ + 1

/-- Python slice `l[a:b]` for nonnegative bounds. -/
def pySlice (l : List ℚ) (a b : ℕ) : List ℚ := (l.take b).drop a

/-- `time_to_ticks` from `process_audio`:
`int(t * (tempo / 60) * ticks_per_beat)`. -/
def time_to_ticks (tempo : ℚ) (ticks_per_beat : ℤ) (t : ℚ) : ℤ :=
  pyInt (t * (tempo / 60) * (ticks_per_beat : ℚ))

/-- `grid_ticks = int(ticks_per_beat * 4 / quantization)` from the
quantization step of `process_audio`. -/
def grid_ticks (quantization ticks_per_beat : ℤ) : ℤ :=
  pyInt (((ticks_per_beat * 4 : ℤ) : ℚ) / (quantization : ℚ))

/-- The quantization step of `process_audio`:
`if quantization > 0: grid_ticks = int(ticks_per_beat * 4 / quantization);
abs_ticks = round(abs_ticks / grid_ticks) * grid_ticks`.
Returns `none` when the computed grid is zero, modelling the Python
`ZeroDivisionError` raised by `abs_ticks / grid_ticks`. -/
def quantizeTicks (quantization ticks_per_beat : ℤ) (absTicks : ℤ) : Option ℤ :=
  if 0 < quantization then
    if grid_ticks quantization ticks_per_beat = 0 then none
    else some (pyRound ((absTicks : ℚ) / (grid_ticks quantization ticks_per_beat : ℚ)) *
      grid_ticks quantization ticks_per_beat)
  else some absTicks

/-- One element of the `events` list built by `process_audio`:
`(abs_ticks, 'note_on'/'note_off', note, velocity)`. -/
structure NoteEvt where
  tick : ℤ
  isOn : Bool
  note : ℕ
  velocity : ℕ
deriving DecidableEq

/-- The two events one onset contributes in `process_audio`:
a `note_on` at the (quantized) onset tick with velocity 100, and a
`note_off` at that tick plus `time_to_ticks(0.1)` with velocity 0.
`none` models the `ZeroDivisionError` of the quantization step. -/
def onsetEvents (quantization ticks_per_beat : ℤ) (tempo : ℚ) (t : ℚ)
    (note : ℕ) : Option (List NoteEvt) :=
  match quantizeTicks quantization ticks_per_beat
      (time_to_ticks tempo ticks_per_beat t) with
  | none => none
  | some absTicks =>
    some [⟨absTicks, true, note, 100⟩,
          ⟨absTicks + time_to_ticks tempo ticks_per_beat (1/10), false, note, 0⟩]

/-- The full `events` list accumulated by the `for onset_time in
sorted_onsets` loop, for onsets already paired with their classified
note numbers. -/
def scheduleEvents (quantization ticks_per_beat : ℤ) (tempo : ℚ) :
    List (ℚ × ℕ) → Option (List NoteEvt)
  | [] => some []
  | (t, n) :: rest =>
    match onsetEvents quantization ticks_per_beat tempo t n,
        scheduleEvents quantization ticks_per_beat tempo rest with
    | some evs, some evsRest => some (evs ++ evsRest)
    | _, _ => none

/-- Comparison by absolute tick, the key of `events.sort(key=lambda x: x[0])`. -/
def evtLE (a b : NoteEvt) : Prop := a.tick ≤ b.tick

instance : DecidableRel evtLE := fun a b => inferInstanceAs (Decidable (a.tick ≤ b.tick))

instance : IsTotal NoteEvt evtLE := ⟨fun a b => Int.le_total a.tick b.tick⟩

instance : IsTrans NoteEvt evtLE := ⟨fun _ _ _ h1 h2 => le_trans h1 h2⟩

/-- `events.sort(key=lambda x: x[0])`: a stable sort by absolute tick. -/
def sortEvents (es : List NoteEvt) : List NoteEvt := es.insertionSort evtLE

/-- The delta-encoding loop writing the track: `delta_ticks = abs_ticks -
last_ticks; if delta_ticks < 0: delta_ticks = 0; ...; last_ticks = abs_ticks`. -/
def deltaEncode (lastTicks : ℤ) : List NoteEvt → List (ℤ × NoteEvt)
  | [] => []
  | e :: es =>
    (if e.tick - lastTicks < 0 then 0 else e.tick - lastTicks, e) ::
      deltaEncode e.tick es

/-- Sorting followed by delta-encoding starting from `last_ticks = 0`:
the `(time=delta, message)` pairs appended to the MIDI track. -/
def buildTrack (es : List NoteEvt) : List (ℤ × NoteEvt) :=
  deltaEncode 0 (sortEvents es)

/-- The external library primitives (scipy/librosa), out of scope per the
design document, modelled as opaque total functions: the low-pass filter,
the beat tracker, the onset-strength envelope, onset detection (returning
frame indices), the magnitude STFT (rows indexed by frequency bin), and
the per-frame spectral centroid. -/
structure LibOracles where
  lowpass : List ℚ → List ℚ
  beatTrack : List ℚ → ℚ
  onsetStrength : List ℚ → List ℚ
  onsetFrames : List ℚ → List ℕ
  stft : List ℚ → List (List ℚ)
  centroid : List (List ℚ) → ℚ → List ℚ

/-- `np.mean` of a one-dimensional array. -/
def npMean (l : List ℚ) : ℚ := l.sum / (l.length : ℚ)

/-- `start_sample = int(onset_time * sr)`. Onset times and rates are
nonnegative, so Python's negative-index wrap-around is not modelled. -/
def segStart (sr t : ℚ) : ℕ := (pyInt (t * sr)).toNat

/-- `end_sample = min(start_sample + int(0.05 * sr), len(y_loop))`. -/
def segEnd (yLoop : List ℚ) (sr t : ℚ) : ℕ :=
  min (segStart sr t + (pyInt (5/100 * sr)).toNat) yLoop.length

/-- `segment = y_loop[start_sample:end_sample]`. -/
def onsetSegment (yLoop : List ℚ) (sr t : ℚ) : List ℚ :=
  pySlice yLoop (segStart sr t) (segEnd yLoop sr t)

/-- `low_energy = np.sum(S[:7, :])`: total magnitude in the bins below
roughly 150 Hz. -/
def lowEnergy (S : List (List ℚ)) : ℚ := ((S.take 7).map List.sum).sum

/-- `high_energy = np.sum(S[93:, :])`: total magnitude in the bins above
roughly 2000 Hz. -/
def highEnergy (S : List (List ℚ)) : ℚ := ((S.drop 93).map List.sum).sum

/-- The per-onset classification block of `process_audio`: slice a 0.05 s
segment after the onset (clipped to the buffer end); if it is non-empty,
compute band energies and the average spectral centroid from the STFT,
and branch kick (36) / snare (38) / closed hi-hat (42); otherwise
default to 38. -/
def classifyOnset (L : LibOracles) (yLoop : List ℚ) (sr t : ℚ) : ℕ :=
  if segStart sr t < segEnd yLoop sr t then
    let S := L.stft (onsetSegment yLoop sr t)
    if highEnergy S * (8/10) < lowEnergy S then 36
    else if npMean (L.centroid S sr) < 3500 then 38
    else 42
  else 38

/-- `librosa.frames_to_time(f, sr=sr)` with the fixed hop length 512. -/
def frames_to_time (sr : ℚ) (f : ℕ) : ℚ := (f : ℚ) * 512 / sr

/-- `librosa.times_like(onset_env, sr=sr)` with the fixed hop length 512:
the time axis of an `n`-frame envelope. -/
def timesLike (sr : ℚ) (n : ℕ) : List ℚ :=
  (List.range n).map (frames_to_time sr)

/-- `np.convolve(onset_env, np.ones(window_frames), mode='valid')`:
the moving sums of every length-`w` contiguous window. -/
def movingSums (env : List ℚ) (w : ℕ) : List ℚ :=
  (List.range (env.length - w + 1)).map (fun i => ((env.drop i).take w).sum)

/-- Helper for `np.argmax`: fold keeping the first index of the maximum. -/
def argmaxAux : ℕ → ℕ → ℚ → List ℚ → ℕ
  | _, best, _, [] => best
  | i, best, bestVal, x :: xs =>
    if bestVal < x then argmaxAux (i + 1) i x xs
    else argmaxAux (i + 1) best bestVal xs

/-- `np.argmax`: index of the first occurrence of the maximum. -/
def argmaxIdx : List ℚ → ℕ
  | [] => 0
  | x :: xs => argmaxAux 1 0 x xs

/-- `duration_4_bars = 16 * (60 / tempo)`. -/
def duration_4_bars (tempo : ℚ) : ℚ := 16 * (60 / tempo)

/-- `window_frames = int(duration_4_bars * sr / hop_length)` with
`hop_length = 512`. -/
def windowFrames (tempo sr : ℚ) : ℤ := pyInt (duration_4_bars tempo * sr / 512)

/-- The loop-window selection of `process_audio`: full envelope span when
`window_frames >= len(onset_env)`, otherwise the argmax of the moving
sums; then `start_time = times[start_frame]` and
`end_time = times[min(end_frame, len(times)-1)]`. `none` models the
`IndexError` raised when the time axis is empty. -/
def selectWindow (env : List ℚ) (sr tempo : ℚ) : Option (ℚ × ℚ) :=
  let wf := windowFrames tempo sr
  let ts := timesLike sr env.length
  let fr : ℕ × ℕ :=
    if (env.length : ℤ) ≤ wf then (0, env.length)
    else
      let s := argmaxIdx (movingSums env wf.toNat)
      (s, s + wf.toNat)
  match ts[fr.1]?, ts[min fr.2 (ts.length - 1)]? with
  | some startTime, some endTime => some (startTime, endTime)
  | _, _ => none

/-- The error kinds observable from `process_audio`:
`separationOutputMissing` is the `FileNotFoundError` raised when the
separated stem file is absent; `indexError` is the Python `IndexError`
from indexing an empty time axis; `zeroDivision` is the
`ZeroDivisionError` from a zero quantization grid; `emptyInput` is the
`EmptyInputError` named by the design document — it is included so that
statements about its (non-)occurrence can be expressed. -/
inductive PipelineError where
  | separationOutputMissing
  | emptyInput
  | indexError
  | zeroDivision
deriving DecidableEq

/-- The two successful outcomes of `process_audio`: the raw-stem export
of audio mode, or the delta-encoded track plus detected tempo of MIDI
mode. -/
inductive ProcOutput where
  | audioStem
  | midiTrack (track : List (ℤ × NoteEvt)) (tempo : ℚ)
deriving DecidableEq

/-- `process_audio` after the external separation call, for a stem buffer
`y` at rate `sr`: branch on stem existence and mode, then (in MIDI mode)
tempo estimation, low-passed onset envelope, loop-window selection,
cropping, onset detection, per-onset classification, scheduling and
delta-encoding. The second component of a successful result is the list
of progress percentages delivered to the caller-supplied callback. -/
def process_audio (L : LibOracles) (stemExists : Bool) (quantization : ℤ)
    (mode : String) (y : List ℚ) (sr : ℚ) :
    Except PipelineError (ProcOutput × List ℕ) :=
  if stemExists then
    if mode ≠ "midi" then Except.ok (ProcOutput.audioStem, [5, 90, 100])
    else
      let tempo := L.beatTrack y
      let env := L.onsetStrength (L.lowpass y)
      match selectWindow env sr tempo with
      | none => Except.error PipelineError.indexError
      | some (startTime, endTime) =>
        let yLoop := pySlice y (pyInt (startTime * sr)).toNat
          (pyInt (endTime * sr)).toNat
        let sortedOnsets :=
          ((L.onsetFrames yLoop).map (frames_to_time sr)).insertionSort (· ≤ ·)
        let pairs := sortedOnsets.map (fun t => (t, classifyOnset L yLoop sr t))
        match scheduleEvents quantization 480 tempo pairs with
        | none => Except.error PipelineError.zeroDivision
        | some es =>
          Except.ok (ProcOutput.midiTrack (buildTrack es) tempo,
            [5, 60, 70, 85, 100])
  else Except.error PipelineError.separationOutputMissing

/-- Modelled from the spec: the onset-to-tick conversion as the design
document words it, `ticks = round(time_seconds × (tempo_bpm/60) ×
ticks_per_beat)`, for comparison with `time_to_ticks` from the source. -/
def spec_time_to_ticks (tempo : ℚ) (ticks_per_beat : ℤ) (t : ℚ) : ℤ :=
  pyRound (t * (tempo / 60) * (ticks_per_beat : ℚ))

/-- Modelled from the spec: the loop-window length in frames as the
design document words it, `round(bars × beats_per_bar × (60/tempo_bpm) ×
sample_rate / hop_length)` with `bars = 4`, `beats_per_bar = 4` and
`hop_length = 512`, for comparison with `windowFrames` from the source. -/
def spec_window_frames (tempo sr : ℚ) : ℤ :=
  pyRound (4 * 4 * (60 / tempo) * sr / 512)

/-- Stub library oracles whose array-returning primitives yield empty
arrays, matching an empty analysis input. -/
def emptyArrayLib : LibOracles where
  lowpass := fun y => y
  beatTrack := fun _ => 120
  onsetStrength := fun _ => []
  onsetFrames := fun _ => []
  stft := fun _ => []
  centroid := fun _ _ => []

/-- Stub library oracles for small concrete runs: a one-frame envelope,
no detected onsets, and a single low-frequency STFT bin. -/
def toyLib : LibOracles where
  lowpass := fun y => y
  beatTrack := fun _ => 120
  onsetStrength := fun _ => [1]
  onsetFrames := fun _ => []
  stft := fun _ => [[10]]
  centroid := fun _ _ => []

/-! ## Helper lemmas -/

/-- On nonnegative arguments, Python `int()` is the floor. -/
theorem pyInt_eq_floor {x : ℚ} (h : 0 ≤ x) : pyInt x = ⌊x⌋ := by
  simp [pyInt, h]

/-- Python `round()` fixes every integer. -/
theorem pyRound_intCast (n : ℤ) : pyRound (n : ℚ) = n := by
  simp [pyRound, Int.floor_intCast]

/-- Every delta written by the delta-encoding loop is nonnegative. -/
theorem deltaEncode_nonneg (lastTicks : ℤ) (l : List NoteEvt) :
    ∀ p ∈ deltaEncode lastTicks l, 0 ≤ p.1 := by
  induction l generalizing lastTicks with
  | nil => intro p hp; simp [deltaEncode] at hp
  | cons e es ih =>
    intro p hp
    rw [deltaEncode] at hp
    rcases List.mem_cons.mp hp with rfl | hmem
    · by_cases hneg : e.tick - lastTicks < 0
      · simp [hneg]
      · simp only [if_neg hneg]
        omega
    · exact ih e.tick p hmem

/-- Delta-encoding only re-times events: the message stream itself is the
input list. -/
theorem deltaEncode_map_snd (lastTicks : ℤ) (l : List NoteEvt) :
    (deltaEncode lastTicks l).map Prod.snd = l := by
  induction l generalizing lastTicks with
  | nil => simp [deltaEncode]
  | cons e es ih => simp [deltaEncode, ih]

/-! ## Claims -/

/-- Claim C3, counterexample: at onset time `1/1000` s, tempo 120 and 480
ticks per beat the exact product is `24/25`; the source's
`time_to_ticks` truncates it to 0 while the spec's rounding formula
gives 1, so the conversion does not round to the nearest tick. -/
theorem time_to_ticks_not_round_cex :
    time_to_ticks 120 480 (1/1000) = 0 ∧
      spec_time_to_ticks 120 480 (1/1000) = 1 ∧
      time_to_ticks 120 480 (1/1000) ≠ spec_time_to_ticks 120 480 (1/1000) := by
  norm_num [time_to_ticks, spec_time_to_ticks, pyInt, pyRound]

/-- Claim C3 (amended): for every onset time `t ≥ 0`, tempo ≥ 0 and
ticks-per-beat ≥ 0, the absolute tick value assigned before quantization
is the floor (Python `int()` truncation) of
`t × (tempo/60) × ticks_per_beat`, not the nearest integer. -/
theorem time_to_ticks_is_floor (tempo : ℚ) (ticks_per_beat : ℤ) (t : ℚ)
    (ht : 0 ≤ t) (htempo : 0 ≤ tempo) (htpb : 0 ≤ ticks_per_beat) :
    time_to_ticks tempo ticks_per_beat t =
      ⌊t * (tempo / 60) * (ticks_per_beat : ℚ)⌋ := by
  have hx : 0 ≤ t * (tempo / 60) * (ticks_per_beat : ℚ) := by
    apply mul_nonneg (mul_nonneg ht (div_nonneg htempo (by norm_num)))
    exact_mod_cast htpb
  exact pyInt_eq_floor hx

/-- Witness for C3 (amended) at onset time `1/1000`, tempo 120, 480 ticks
per beat. -/
theorem time_to_ticks_is_floor_witness :
    time_to_ticks 120 480 (1/1000) = ⌊(1/1000 : ℚ) * (120 / 60) * (480 : ℚ)⌋ :=
  time_to_ticks_is_floor 120 480 (1/1000) (by norm_num) (by norm_num) (by norm_num)

/-- Claim C6, counterexample: at tempo 120 BPM and sample rate 22050 Hz
the exact frame count is `344.53125`; the source's `window_frames`
truncates it to 344 while the spec's rounding formula gives 345. -/
theorem window_frames_not_round_cex :
    windowFrames 120 22050 = 344 ∧ spec_window_frames 120 22050 = 345 ∧
      windowFrames 120 22050 ≠ spec_window_frames 120 22050 := by
  norm_num [windowFrames, spec_window_frames, duration_4_bars, pyInt, pyRound]

/-- Claim C6 (amended): for every tempo > 0 and sample rate ≥ 0 the
loop-window length in envelope frames is the floor (Python `int()`
truncation) of `16 × (60/tempo) × sample_rate / 512`, not the nearest
integer. -/
theorem window_frames_is_floor (tempo sr : ℚ) (htempo : 0 < tempo)
    (hsr : 0 ≤ sr) : windowFrames tempo sr = ⌊16 * (60 / tempo) * sr / 512⌋ := by
  have hx : (0:ℚ) ≤ 16 * (60 / tempo) * sr / 512 :=
    div_nonneg (mul_nonneg (mul_nonneg (by norm_num)
      (div_nonneg (by norm_num) htempo.le)) hsr) (by norm_num)
  unfold windowFrames duration_4_bars
  exact pyInt_eq_floor hx

/-- Witness for C6 (amended) at tempo 120 BPM and sample rate 22050 Hz. -/
theorem window_frames_is_floor_witness :
    windowFrames 120 22050 = ⌊(16 : ℚ) * (60 / 120) * 22050 / 512⌋ :=
  window_frames_is_floor 120 22050 (by norm_num) (by norm_num)

/-- Claim C7: quantization is idempotent — a tick value the quantization
step has already snapped to the grid is returned unchanged when snapped
again with the same quantization division and ticks-per-beat. -/
theorem quantize_idempotent (quantization ticks_per_beat x y : ℤ)
    (h : quantizeTicks quantization ticks_per_beat x = some y) :
    quantizeTicks quantization ticks_per_beat y = some y := by
  unfold quantizeTicks at h ⊢
  by_cases hq : 0 < quantization
  · rw [if_pos hq] at h ⊢
    by_cases hg : grid_ticks quantization ticks_per_beat = 0
    · rw [if_pos hg] at h
      exact absurd h (by simp)
    · rw [if_neg hg] at h ⊢
      have hy := Option.some.inj h
      subst hy
      have hgq : ((grid_ticks quantization ticks_per_beat : ℤ) : ℚ) ≠ 0 :=
        Int.cast_ne_zero.mpr hg
      rw [Int.cast_mul, mul_div_assoc, div_self hgq, mul_one, pyRound_intCast]
  · rw [if_neg hq] at h ⊢

/-- Witness for C7: the already-on-grid tick 960 (onset at 1.000 s, tempo
120, 480 ticks per beat, 1/16 quantization) re-quantizes to itself. -/
theorem quantize_idempotent_witness : quantizeTicks 16 480 960 = some 960 :=
  quantize_idempotent 16 480 960 960
    (by norm_num [quantizeTicks, grid_ticks, pyInt, pyRound])

/-- Claim C8: for any quantization division above 1920 (with the default
480 ticks per beat), `int(ticks_per_beat * 4 / quantization)` truncates
to a zero grid and the snap divides by zero, so quantization fails
(modelled as `none`) for every tick value, and the scheduling step fails
for any input with at least one onset. -/
theorem quantize_grid_zero_fails (quantization : ℤ) (hq : 1920 < quantization) :
    (∀ x : ℤ, quantizeTicks quantization 480 x = none) ∧
      ∀ (tempo t : ℚ) (n : ℕ) (rest : List (ℚ × ℕ)),
        scheduleEvents quantization 480 tempo ((t, n) :: rest) = none := by
  have hq0 : (0 : ℤ) < quantization := by omega
  have hgrid : grid_ticks quantization 480 = 0 := by
    unfold grid_ticks
    have h1 : (0 : ℚ) ≤ ((480 * 4 : ℤ) : ℚ) / (quantization : ℚ) := by
      apply div_nonneg (by norm_num)
      exact_mod_cast hq0.le
    rw [pyInt_eq_floor h1, Int.floor_eq_zero_iff, Set.mem_Ico]
    refine ⟨h1, ?_⟩
    rw [div_lt_one (by exact_mod_cast hq0)]
    exact_mod_cast hq
  have hfail : ∀ x : ℤ, quantizeTicks quantization 480 x = none := by
    intro x
    unfold quantizeTicks
    rw [if_pos hq0, if_pos hgrid]
  refine ⟨hfail, ?_⟩
  intro tempo t n rest
  rw [scheduleEvents]
  unfold onsetEvents
  rw [hfail]

/-- Witness for C8 at quantization division 1921. -/
theorem quantize_grid_zero_fails_witness :
    quantizeTicks 1921 480 960 = none :=
  (quantize_grid_zero_fails 1921 (by norm_num)).1 960

/-- Claim C1: for every list of onset times and voices, when the
scheduling step succeeds the message stream written to the track (the
second components of the delta-encoded track, which is exactly the
stable-sorted event list) has non-decreasing absolute ticks, and every
delta-tick value written is nonnegative (current minus previous,
clamped at zero). -/
theorem schedule_track_monotone (quantization ticks_per_beat : ℤ)
    (tempo : ℚ) (onsets : List (ℚ × ℕ)) (es : List NoteEvt)
    (_h : scheduleEvents quantization ticks_per_beat tempo onsets = some es) :
    (buildTrack es).map Prod.snd = sortEvents es ∧
      List.Sorted evtLE (sortEvents es) ∧
      ∀ p ∈ buildTrack es, 0 ≤ p.1 := by
  refine ⟨deltaEncode_map_snd 0 (sortEvents es), ?_, deltaEncode_nonneg 0 (sortEvents es)⟩
  exact List.sorted_insertionSort evtLE es

/-- Witness for C1: a single onset at 1.000 s, tempo 120, 480 ticks per
beat, 1/16 quantization schedules the events at ticks 960 and 1056. -/
theorem schedule_track_monotone_witness :
    scheduleEvents 16 480 120 [(1, 38)] =
        some [⟨960, true, 38, 100⟩, ⟨1056, false, 38, 0⟩] ∧
      (buildTrack [⟨960, true, 38, 100⟩, ⟨1056, false, 38, 0⟩]).map Prod.snd =
        sortEvents [⟨960, true, 38, 100⟩, ⟨1056, false, 38, 0⟩] ∧
      List.Sorted evtLE (sortEvents [⟨960, true, 38, 100⟩, ⟨1056, false, 38, 0⟩]) ∧
      ∀ p ∈ buildTrack [⟨960, true, 38, 100⟩, ⟨1056, false, 38, 0⟩], 0 ≤ p.1 := by
  have h : scheduleEvents 16 480 120 [(1, 38)] =
      some [⟨960, true, 38, 100⟩, ⟨1056, false, 38, 0⟩] := by
    norm_num [scheduleEvents, onsetEvents, quantizeTicks, grid_ticks,
      time_to_ticks, pyInt, pyRound]
  exact ⟨h, schedule_track_monotone 16 480 120 [(1, 38)] _ h⟩

/-- Claim C4: for a non-empty onset segment the classifier takes the
three branches in order — kick (36) when `low_energy > high_energy *
0.8`, else snare (38) when the average centroid is below 3500 Hz, else
closed hi-hat (42) — and for a zero-length segment it returns snare (38)
for every choice of spectral-feature oracles, i.e. without consulting
any spectral features. -/
theorem classify_onset_branches (L : LibOracles) (yLoop : List ℚ) (sr t : ℚ) :
    (segStart sr t < segEnd yLoop sr t →
      (highEnergy (L.stft (onsetSegment yLoop sr t)) * (8/10) <
          lowEnergy (L.stft (onsetSegment yLoop sr t)) →
        classifyOnset L yLoop sr t = 36) ∧
      (¬ highEnergy (L.stft (onsetSegment yLoop sr t)) * (8/10) <
          lowEnergy (L.stft (onsetSegment yLoop sr t)) →
        npMean (L.centroid (L.stft (onsetSegment yLoop sr t)) sr) < 3500 →
        classifyOnset L yLoop sr t = 38) ∧
      (¬ highEnergy (L.stft (onsetSegment yLoop sr t)) * (8/10) <
          lowEnergy (L.stft (onsetSegment yLoop sr t)) →
        ¬ npMean (L.centroid (L.stft (onsetSegment yLoop sr t)) sr) < 3500 →
        classifyOnset L yLoop sr t = 42)) ∧
    (¬ segStart sr t < segEnd yLoop sr t →
      ∀ M : LibOracles, classifyOnset M yLoop sr t = 38) := by
  constructor
  · intro hne
    refine ⟨fun hk => ?_, fun hk hc => ?_, fun hk hc => ?_⟩
    · simp [classifyOnset, hne, hk]
    · simp [classifyOnset, hne, hk, hc]
    · simp [classifyOnset, hne, hk, hc]
  · intro hz M
    simp [classifyOnset, hz]

/-- Witness for C4: a one-sample buffer at rate 20 with an onset at 0 s
gives a non-empty segment, and with all STFT energy in the lowest bin
the kick branch fires. -/
theorem classify_onset_branches_witness :
    classifyOnset toyLib [1] 20 0 = 36 :=
  ((classify_onset_branches toyLib [1] 20 0).1
      (by norm_num [segStart, segEnd, pyInt])).1
    (by norm_num [toyLib, onsetSegment, pySlice, segStart, segEnd, pyInt,
      lowEnergy, highEnergy])

/-- Claim C9: the onset-voice classification is deterministic — two runs
on identical oracles, loop buffers, sample rates and onset times assign
the same note number; the embedded classifier is a pure function of
these inputs and nothing else. -/
theorem classify_onset_deterministic (L L' : LibOracles)
    (yLoop yLoop' : List ℚ) (sr sr' t t' : ℚ)
    (hL : L = L') (hy : yLoop = yLoop') (hsr : sr = sr') (ht : t = t') :
    classifyOnset L yLoop sr t = classifyOnset L' yLoop' sr' t' := by
  subst hL; subst hy; subst hsr; subst ht; rfl

/-- Witness for C9 on a concrete segment. -/
theorem classify_onset_deterministic_witness :
    classifyOnset toyLib [1] 20 0 = classifyOnset toyLib [1] 20 0 :=
  classify_onset_deterministic toyLib toyLib [1] [1] 20 20 0 0 rfl rfl rfl rfl

/-- Claim C5, counterexample: a 1792-sample buffer at 512 Hz has duration
`7/2` s and a 4-frame onset envelope (librosa yields `1 + 1792 / 512 = 4`
frames); at tempo 120 the window is `windowFrames 120 512 = 8 ≥ 4`
frames, so the short-input branch fires, yet the selected window is
`(0, 3)`: its end is the last envelope frame time 3 s, not the buffer
duration `7/2` s. -/
theorem select_window_short_cex :
    selectWindow [1, 1, 1, 1] 512 120 = some (0, 3) ∧ (3 : ℚ) ≠ 7/2 := by
  constructor
  · norm_num [selectWindow, windowFrames, duration_4_bars, timesLike,
      frames_to_time, pyInt, List.range_succ]
  · norm_num

/-- Claim C5 (amended): for every non-empty envelope with
`window_frames ≥` the envelope length, the selected window starts at 0
and ends at the time of the last envelope frame,
`(len(envelope) − 1) × 512 / sr` — which can fall short of the buffer
duration by up to one hop. -/
theorem select_window_short_input (env : List ℚ) (sr tempo : ℚ)
    (hne : env ≠ []) (hwf : (env.length : ℤ) ≤ windowFrames tempo sr) :
    selectWindow env sr tempo = some (0, frames_to_time sr (env.length - 1)) := by
  have hlen : 0 < env.length := List.length_pos.mpr hne
  have hsub : env.length - 1 < env.length := Nat.sub_lt hlen one_pos
  have hts : ∀ i, i < env.length →
      (timesLike sr env.length)[i]? = some (frames_to_time sr i) := by
    intro i hi
    unfold timesLike
    rw [List.getElem?_map, List.getElem?_range hi]
    rfl
  have hlenTs : (timesLike sr env.length).length = env.length := by
    unfold timesLike
    rw [List.length_map, List.length_range]
  simp only [selectWindow, hwf, if_true]
  rw [hlenTs, min_eq_right (Nat.sub_le env.length 1), hts 0 hlen,
    hts (env.length - 1) hsub]
  norm_num [frames_to_time]

/-- Witness for C5 (amended): the envelope `[1, 1, 1, 1]` at 512 Hz and
tempo 120. -/
theorem select_window_short_input_witness :
    selectWindow [1, 1, 1, 1] 512 120 =
      some (0, frames_to_time 512 ([(1:ℚ), 1, 1, 1].length - 1)) :=
  select_window_short_input [1, 1, 1, 1] 512 120 (by simp)
    (by norm_num [windowFrames, duration_4_bars, pyInt])

/-- Claim C2, counterexample: on an empty buffer in transcribe mode (with
library primitives returning empty arrays, as on empty input) the
pipeline does not raise the spec's `EmptyInputError`: it proceeds past
tempo estimation into envelope and time-axis computation and fails there
with an `IndexError` (indexing the empty time axis). -/
theorem process_audio_empty_input_cex :
    process_audio emptyArrayLib true 16 "midi" [] 512 =
        Except.error PipelineError.indexError ∧
      PipelineError.indexError ≠ PipelineError.emptyInput := by
  constructor
  · norm_num [process_audio, emptyArrayLib, selectWindow, timesLike,
      windowFrames, duration_4_bars, pyInt]
  · simp

/-- Claim C2 (amended): the pipeline contains no empty-input guard — for
every input (empty or not), in every mode, no run of `process_audio`
terminates with `EmptyInputError`; failures surface as the separation,
indexing or division errors actually present in the code. -/
theorem process_audio_never_empty_input_error (L : LibOracles)
    (stemExists : Bool) (quantization : ℤ) (mode : String) (y : List ℚ)
    (sr : ℚ) :
    ∀ e, process_audio L stemExists quantization mode y sr = Except.error e →
      e ≠ PipelineError.emptyInput := by
  intro e h
  unfold process_audio at h
  split at h
  · split at h
    · exact absurd h (by simp)
    · simp only [] at h
      split at h
      · simp only [Except.error.injEq] at h
        subst h
        simp
      · split at h
        · simp only [Except.error.injEq] at h
          subst h
          simp
        · exact absurd h (by simp)
  · simp only [Except.error.injEq] at h
    subst h
    simp

/-- Witness for C2 (amended): the empty-buffer transcribe-mode run with
empty-array library stubs ends in an error that is not `EmptyInputError`. -/
theorem process_audio_never_empty_input_error_witness :
    PipelineError.indexError ≠ PipelineError.emptyInput :=
  process_audio_never_empty_input_error emptyArrayLib true 16 "midi" [] 512
    PipelineError.indexError
    (by norm_num [process_audio, emptyArrayLib, selectWindow, timesLike,
      windowFrames, duration_4_bars, pyInt])

/-- Claim C10: in every successful run, the progress percentages
delivered to the caller-supplied callback are strictly increasing, lie
within 0–100, and end at 100. -/
theorem progress_reports_monotone (L : LibOracles) (stemExists : Bool)
    (quantization : ℤ) (mode : String) (y : List ℚ) (sr : ℚ)
    (out : ProcOutput) (prog : List ℕ)
    (h : process_audio L stemExists quantization mode y sr =
      Except.ok (out, prog)) :
    List.Sorted (· < ·) prog ∧ (∀ p ∈ prog, p ≤ 100) ∧
      prog.getLast? = some 100 := by
  unfold process_audio at h
  split at h
  · split at h
    · simp only [Except.ok.injEq, Prod.mk.injEq] at h
      obtain ⟨-, rfl⟩ := h
      exact ⟨by decide, by decide, rfl⟩
    · simp only [] at h
      split at h
      · exact absurd h (by simp)
      · split at h
        · exact absurd h (by simp)
        · simp only [Except.ok.injEq, Prod.mk.injEq] at h
          obtain ⟨-, rfl⟩ := h
          exact ⟨by decide, by decide, rfl⟩
  · exact absurd h (by simp)

/-- Witness for C10: a raw-stem-mode run succeeds and reports
`[5, 90, 100]`. -/
theorem progress_reports_monotone_witness :
    List.Sorted (· < ·) [5, 90, 100] ∧ (∀ p ∈ [5, 90, 100], p ≤ 100) ∧
      List.getLast? [5, 90, 100] = some 100 :=
  progress_reports_monotone emptyArrayLib true 16 "wav" [] 512
    ProcOutput.audioStem [5, 90, 100] (by simp [process_audio])

end MidiGen
